import Mathlib

/-!
Verification of the Solana SIWS (Sign-In-With-Solana) provider of the
openauth-server repository.

The development shallowly embeds the server-side provider
(`SolanaProvider` in the provider module: `generateNonce`, the
`GET /authorize` route and the `POST /callback` route) and the browser
signing client (`SIWSWalletClient` in `src/wallet-client/index.ts`).

Conventions of the embedding:
* timestamps are integers (milliseconds since epoch, like JS `Date.getTime`);
* external collaborators (the KV storage, the encrypted-cookie codec,
  `verifySignIn`, `parseSignInMessage`, `ctx.success`, the wallet and the
  network) are abstracted as explicit inputs: the storage as an association
  list threaded through the handler, the others as fields of an environment
  record giving each interaction's outcome;
* a JS exception is an `Except.error` carrying the message string;
* JS truthiness is modelled exactly where the source relies on it: a missing
  field or the empty string is falsy, but an array — even an empty one — is
  truthy.
-/

namespace OpenauthSiws

/-- Alphabet used by the nonce generator (provider module, `generateNonce`):
uppercase, lowercase and digits — 62 characters. -/
def nonceChars : List Char :=
  "ABCDEFGHIJKLMNOPQRSTUVWXYZabcdefghijklmnopqrstuvwxyz0123456789".toList

/-- Embedding of `generateNonce`. The source builds a 16-character string,
each character `chars.charAt(Math.floor(Math.random() * chars.length))`.
The random draw is abstracted as a stream `rand` of indices below 62, which
is exactly the range of `Math.floor(Math.random() * 62)`. -/
def generateNonce (rand : Nat → Fin 62) : String :=
  String.mk ((List.range 16).map (fun i => nonceChars.getD (rand i).val 'A'))

/-- The `SolanaSignInInput` built by the authorize route and round-tripped
through the encrypted provider cookie. -/
structure SolanaSignInInput where
  domain : String
  statement : String
  uri : String
  version : String
  chainId : String
  nonce : String
  issuedAt : Int
  expirationTime : Int
deriving DecidableEq, Repr

/-- JSON body of `POST /callback`. Each field is `Option`-wrapped because the
client may omit it; the source checks presence with JS truthiness. -/
structure CallbackBody where
  address : Option String
  publicKey : Option (List Nat)
  signature : Option (List Nat)
  signedMessage : Option (List Nat)
deriving DecidableEq, Repr

/-- Fields of the signed message as re-parsed by `parseSignInMessage`, with
the timestamp fields already converted to milliseconds (`new Date(s)` on a
well-formed date string). Only the fields the handler reads are kept. -/
structure ParsedMessage where
  domain : String
  expirationTime : Option Int
  notBefore : Option Int
deriving DecidableEq, Repr

/-- Responses the callback route can produce: an error JSON with a status,
the success JSON carrying the redirect URL, or — in the no-Location fallback
branch — the collaborator's raw response forwarded unchanged. -/
inductive CallbackResult where
  | errorJson (message : String) (status : Nat)
  | successJson (redirectUrl : String)
  | rawResponse (status : Nat)
deriving DecidableEq, Repr

/-- Observable side effects of one callback execution, in program order. -/
inductive Event where
  | storageGet (key : List String)
  | storageRemove (key : List String)
  | verifyCall
  | parseCall
  | successCall (address : String)
deriving DecidableEq, Repr

/-- The nonce store: association list from nonce string to the stored
`issuedAt` value. `Storage.set` prepends, `Storage.get` finds the first
binding, `Storage.remove` erases the key. -/
abbrev NonceStore := List (String × Int)

def findNonce (store : NonceStore) (n : String) : Option Int :=
  (store.find? (fun p => p.1 == n)).map Prod.snd

def removeNonce (store : NonceStore) (n : String) : NonceStore :=
  store.filter (fun p => !(p.1 == n))

/-- JS truthiness of an optional string: absent and `""` are falsy. -/
def jsFalsyString : Option String → Bool
  | none => true
  | some s => s == ""

/-- JS truthiness of an optional array: only absence is falsy — an empty
array is truthy in JS, so `![]` is `false`. -/
def jsFalsyArray : Option (List Nat) → Bool
  | none => true
  | some _ => false

/-- The callback route's field-presence test, mirroring
`!body.address || !body.publicKey || !body.signature || !body.signedMessage`. -/
def missingFieldsCheck (body : CallbackBody) : Bool :=
  jsFalsyString body.address || jsFalsyArray body.publicKey ||
    jsFalsyArray body.signature || jsFalsyArray body.signedMessage

/-- Mirrors `parsed.expirationTime && new Date(parsed.expirationTime) < new Date()`. -/
def expiredCheck (p : ParsedMessage) (now : Int) : Bool :=
  match p.expirationTime with
  | some t => decide (t < now)
  | none => false

/-- Mirrors `parsed.notBefore && new Date(parsed.notBefore) > new Date()`. -/
def notYetValidCheck (p : ParsedMessage) (now : Int) : Bool :=
  match p.notBefore with
  | some t => decide (now < t)
  | none => false

/-- Outcomes of the callback route's external interactions, fixed up front:
`body` is the parsed JSON body (`none` = `c.req.json()` threw), `cookie` the
provider cookie (`ctx.get`), `verifyOk` the result of `verifySignIn`,
`parsed` the result of `parseSignInMessage`, `now` the current time, `host`
the callback request's own host, and the last two fields describe the
response returned by `ctx.success`. -/
structure CallbackEnv where
  body : Option CallbackBody
  cookie : Option SolanaSignInInput
  verifyOk : Bool
  parsed : Option ParsedMessage
  now : Int
  host : String
  successStatus : Nat
  successLocation : Option String
deriving DecidableEq, Repr

/-- Result of one callback execution: the HTTP-level result, the nonce store
it leaves behind, and the trace of observable effects in program order. -/
structure CallbackRun where
  result : CallbackResult
  store : NonceStore
  events : List Event
deriving DecidableEq, Repr

/-- Embedding of the `POST /callback` route of the provider module,
stage for stage:
1. body parse (a throw is caught by the outer try: 500 "Authentication failed");
2. field presence via JS truthiness: 400 "Missing required fields";
3. cookie recovery: 400 "Session expired. Please try again.";
4. nonce lookup: 400 "Invalid or expired nonce";
5. nonce deletion (before any cryptographic work);
6. `verifySignIn`: 401 "Signature verification failed";
7. `parseSignInMessage`: 400 "Invalid message format";
8. domain equality with the request host: 401 "Domain mismatch";
9. expiry: 401 "Message expired"; 10. notBefore: 401 "Message not yet valid";
11. `ctx.success` with the body's address, returning
`{success: true, redirectUrl}` when the response has a Location header and
the raw response otherwise. -/
def callbackHandler (env : CallbackEnv) (store : NonceStore) : CallbackRun :=
  match env.body with
  | none => ⟨.errorJson "Authentication failed" 500, store, []⟩
  | some body =>
    if missingFieldsCheck body then
      ⟨.errorJson "Missing required fields" 400, store, []⟩
    else
      match env.cookie with
      | none => ⟨.errorJson "Session expired. Please try again." 400, store, []⟩
      | some input =>
        let key := ["solana", "nonce", input.nonce]
        match findNonce store input.nonce with
        | none => ⟨.errorJson "Invalid or expired nonce" 400, store, [.storageGet key]⟩
        | some _ =>
          let store1 := removeNonce store input.nonce
          if env.verifyOk = false then
            ⟨.errorJson "Signature verification failed" 401, store1,
              [.storageGet key, .storageRemove key, .verifyCall]⟩
          else
            match env.parsed with
            | none =>
              ⟨.errorJson "Invalid message format" 400, store1,
                [.storageGet key, .storageRemove key, .verifyCall, .parseCall]⟩
            | some parsed =>
              let evs := [Event.storageGet key, .storageRemove key, .verifyCall, .parseCall]
              if parsed.domain ≠ env.host then
                ⟨.errorJson "Domain mismatch" 401, store1, evs⟩
              else if expiredCheck parsed env.now then
                ⟨.errorJson "Message expired" 401, store1, evs⟩
              else if notYetValidCheck parsed env.now then
                ⟨.errorJson "Message not yet valid" 401, store1, evs⟩
              else
                let addr := body.address.getD ""
                match env.successLocation with
                | some url => ⟨.successJson url, store1, evs ++ [.successCall addr]⟩
                | none => ⟨.rawResponse env.successStatus, store1, evs ++ [.successCall addr]⟩

/-- Inputs of the `GET /authorize` route: the request URL's host and origin,
the freshly generated nonce, the current time, the configuration options and
the `SOLANA_CHAIN_ID` environment variable, and the `redirect_uri` query
parameter. -/
structure AuthorizeEnv where
  host : String
  origin : String
  nonce : String
  now : Int
  configStatement : Option String
  configChainId : Option String
  envChainId : Option String
  configNonceExpiry : Option Int
  redirectQuery : Option String
deriving DecidableEq, Repr

/-- Observable effects of the authorize route, in program order: the KV
`Storage.set` of the nonce record with its TTL (seconds), the cookie write
with its TTL, and the hand-off to the UI renderer. -/
inductive AuthEvent where
  | storageSet (key : List String) (ttl : Int)
  | cookieSet (ttl : Int)
  | render (callbackUrl : String) (redirectUrl : String)
deriving DecidableEq, Repr

/-- Result of one authorize execution. -/
structure AuthorizeRun where
  signInInput : SolanaSignInInput
  store : NonceStore
  events : List AuthEvent
  callbackUrl : String
  redirectUrl : String
deriving DecidableEq, Repr

/-- Embedding of the `GET /authorize` route of the provider module:
`nonceExpiry = config.nonceExpiry ?? 600`, `expirationTime = now +
nonceExpiry * 1000`, chain id from config, then environment, then
`"mainnet"`; the nonce record `issuedAt` is stored under
`["solana", "nonce", nonce]` with TTL `nonceExpiry`, the sign-in input is
written to the provider cookie with the same TTL, and only then is the UI
rendered with `(signInInput, callbackUrl, redirectUrl)`. -/
def authorizeHandler (env : AuthorizeEnv) (store : NonceStore) : AuthorizeRun :=
  let nonceExpiry := env.configNonceExpiry.getD 600
  let expirationTime := env.now + nonceExpiry * 1000
  let chainId := env.configChainId.getD (env.envChainId.getD "mainnet")
  let input : SolanaSignInInput :=
    { domain := env.host
      statement := env.configStatement.getD "Sign in with your Solana wallet"
      uri := env.origin
      version := "1"
      chainId := chainId
      nonce := env.nonce
      issuedAt := env.now
      expirationTime := expirationTime }
  let key := ["solana", "nonce", env.nonce]
  let callbackUrl := env.origin ++ "/solana/callback"
  let redirectUrl := env.redirectQuery.getD env.origin
  { signInInput := input
    store := (env.nonce, env.now) :: store
    events := [.storageSet key nonceExpiry, .cookieSet nonceExpiry,
      .render callbackUrl redirectUrl]
    callbackUrl := callbackUrl
    redirectUrl := redirectUrl }

/-!
Interleaving model of two concurrent callback executions sharing one nonce.

In the source the nonce check is `await Storage.get(...)` followed by
`await Storage.remove(...)`: two separate awaited storage operations with a
suspension point between them (and on Cloudflare the two requests may even
run in distinct isolates against eventually-consistent KV). Each thread of
the model therefore performs two atomic steps — the lookup, then the
deletion — and its verification work is "reached" once the deletion is done,
exactly the program order of the route. A schedule is a list of thread ids.
-/

/-- Progress of one callback execution through the nonce stage. -/
inductive ThreadPhase where
  | ready
  | foundNonce
  | deleted
  | failedNonce
deriving DecidableEq, Repr

/-- Shared state: whether the nonce record is still present, plus the phase
of each of the two executions. -/
structure RaceState where
  noncePresent : Bool
  phase0 : ThreadPhase
  phase1 : ThreadPhase
deriving DecidableEq, Repr

/-- One atomic storage step of a single execution: in `ready` it performs
the `Storage.get` (failing with InvalidOrExpiredNonce when the record is
gone), in `foundNonce` it performs the `Storage.remove`; terminal phases do
not move. -/
def stepThread (present : Bool) (p : ThreadPhase) : Bool × ThreadPhase :=
  match p with
  | .ready => if present then (present, .foundNonce) else (present, .failedNonce)
  | .foundNonce => (false, .deleted)
  | .deleted => (present, .deleted)
  | .failedNonce => (present, .failedNonce)

/-- Advance the scheduled thread (`false` = first, `true` = second). -/
def raceStep (s : RaceState) (i : Bool) : RaceState :=
  if i then
    let r := stepThread s.noncePresent s.phase1
    ⟨r.1, s.phase0, r.2⟩
  else
    let r := stepThread s.noncePresent s.phase0
    ⟨r.1, r.2, s.phase1⟩

/-- Run a schedule from the state where the nonce exists and both callbacks
are about to look it up. -/
def raceRun (sched : List Bool) : RaceState :=
  sched.foldl raceStep ⟨true, .ready, .ready⟩

/-- A callback execution reaches signature verification exactly when it got
past the deletion of the nonce record. -/
def reachesVerification (p : ThreadPhase) : Bool := p == ThreadPhase.deleted

/-- A callback execution failed the nonce stage with InvalidOrExpiredNonce. -/
def failedNonceStage (p : ThreadPhase) : Bool := p == ThreadPhase.failedNonce

/-!
Embedding of the browser signing client, `SIWSWalletClient` in
`src/wallet-client/index.ts`: the allow-list filter behind `getWallets` and
`onWalletsChange`, and the `connectAndSign` control flow.
-/

/-- Does `as` start with `needle`? Code-level model of a JS string prefix
test, used to build the substring test below. -/
def codesStartWith : List Nat → List Nat → Bool
  | [], _ => true
  | _ :: _, [] => false
  | a :: as, b :: bs => a == b && codesStartWith as bs

/-- Does the haystack contain the needle as a contiguous substring?
Model of JS `String.prototype.includes` over character codes. -/
def codesContain (needle : List Nat) : List Nat → Bool
  | [] => needle.isEmpty
  | b :: bs => codesStartWith needle (b :: bs) || codesContain needle bs

/-- The character codes of a string. -/
def strCodes (s : String) : List Nat := s.toList.map Char.toNat

/-- JS `hay.includes(needle)` (case-sensitive). -/
def strContains (hay needle : String) : Bool :=
  codesContain (strCodes needle) (strCodes hay)

/-- ASCII lower-casing of one character code, the fragment of JS
`toLowerCase` exercised by the wallet names. -/
def toLowerCode (n : Nat) : Nat :=
  if 65 ≤ n ∧ n ≤ 90 then n + 32 else n

/-- The character codes of `s.toLowerCase()`. -/
def lowerCodes (s : String) : List Nat := (strCodes s).map toLowerCode

/-- JS `hay.toLowerCase().includes(needle.toLowerCase())`. -/
def strContainsCI (hay needle : String) : Bool :=
  codesContain (lowerCodes needle) (lowerCodes hay)

/-- The curated allow-list, `SUPPORTED_WALLETS` in the wallet client. -/
def SUPPORTED_WALLETS : List String := ["Phantom", "Solflare", "Backpack"]

/-- Discovered wallet metadata; only the name is consulted by the filter. -/
structure WalletConnectorMetadata where
  name : String
deriving DecidableEq, Repr

/-- The filter predicate of `getWallets`:
`SUPPORTED_WALLETS.some((name) => w.name.toLowerCase().includes(name.toLowerCase()))`. -/
def walletAllowed (w : WalletConnectorMetadata) : Bool :=
  SUPPORTED_WALLETS.any (fun n => strContainsCI w.name n)

/-- `getWallets`: filter the snapshot's connectors by the allow-list. -/
def getWallets (connectors : List WalletConnectorMetadata) : List WalletConnectorMetadata :=
  connectors.filter walletAllowed

/-- The filter applied inside the `onWalletsChange` subscription, written
out inline in the source with the same predicate. -/
def onWalletsChangeFiltered (connectors : List WalletConnectorMetadata) :
    List WalletConnectorMetadata :=
  connectors.filter
    (fun w => SUPPORTED_WALLETS.any (fun n => strContainsCI w.name n))

/-- A `SolanaSignInOutput` as the client assembles it: account address and
public key, signature bytes and signed-message bytes. -/
structure SignOutput where
  address : String
  publicKey : List Nat
  signature : List Nat
  signedMessage : List Nat
deriving DecidableEq, Repr

/-- The callback `fetch` response as the client consumes it: `ok` and
`status` from the HTTP layer, `jsonOk` whether `response.json()` succeeded
(on failure the source substitutes an empty object), and the three fields
it reads from the parsed JSON. -/
structure FetchResponse where
  ok : Bool
  status : Nat
  jsonOk : Bool
  dataSuccess : Option Bool
  dataRedirectUrl : Option String
  dataError : Option String
deriving DecidableEq, Repr

/-- The tagged result type `SIWSResult` returned by `connectAndSign`. -/
structure SIWSResult where
  success : Bool
  redirectUrl : Option String
  error : Option String
deriving DecidableEq, Repr

instance {ε α : Type} [DecidableEq ε] [DecidableEq α] : DecidableEq (Except ε α) :=
  fun x y =>
    match x, y with
    | .error a, .error b =>
      if h : a = b then .isTrue (by rw [h]) else .isFalse (by simp [h])
    | .error _, .ok _ => .isFalse (by simp)
    | .ok _, .error _ => .isFalse (by simp)
    | .ok a, .ok b =>
      if h : a = b then .isTrue (by rw [h]) else .isFalse (by simp [h])

/-- Outcomes of every external interaction `connectAndSign` performs, fixed
up front. An `Except.error` is a rejected promise (including the timeout
races, which reject with a "timed out" message); `walletConnected` is
`state.wallet.status === "connected"`; `connectorFound` whether
`getConnector` returned a wallet; `hasSignIn` and `hasSignMessage` the
capability probes; the remaining fields carry each path's data. -/
structure ConnectEnv where
  connectResult : Except String Unit
  walletConnected : Bool
  connectorFound : Bool
  hasSignIn : Bool
  signInResult : Except String (List SignOutput)
  hasSignMessage : Bool
  signMessageResult : Except String (List Nat)
  accountAddress : String
  accountPublicKey : List Nat
  fallbackMessageBytes : List Nat
  fetchResult : Except String FetchResponse
deriving DecidableEq, Repr

/-- JS `responseData.error || fallback`: the fallback is used when `error`
is absent or the empty string (both falsy). -/
def jsOrElse (e : Option String) (fallback : String) : String :=
  match e with
  | some s => if s == "" then fallback else s
  | none => fallback

/-- The catch handler of `connectAndSign`: rejection vocabulary maps to the
friendlier cancellation copy; the "timed out" branch and the final branch of
the source both return the message unchanged, so they collapse here. -/
def catchMessage (msg : String) : String :=
  if strContains msg "rejected" || strContains msg "cancelled" ||
      strContains msg "denied" || strContains msg "User rejected" then
    "Sign-in was cancelled"
  else msg

/-- Body of the `try` block of `connectAndSign`, stage for stage; an
`Except.error` is an exception propagating to the catch handler. The
intermediate `Except SIWSResult SignOutput` distinguishes the early
`return { success: false, ... }` statements of the signing stage from a
produced output. -/
def connectAndSignAux (env : ConnectEnv) : Except String SIWSResult :=
  match env.connectResult with
  | .error e => .error e
  | .ok _ =>
    if env.walletConnected = false then
      .ok ⟨false, none, some "Failed to connect wallet"⟩
    else if env.connectorFound = false then
      .ok ⟨false, none, some "Wallet not found"⟩
    else
      let outputStep : Except String (Except SIWSResult SignOutput) :=
        if env.hasSignIn then
          match env.signInResult with
          | .error e => .error e
          | .ok [] => .ok (.error ⟨false, none, some "Wallet returned no sign-in result"⟩)
          | .ok (o :: _) => .ok (.ok o)
        else if env.hasSignMessage then
          match env.signMessageResult with
          | .error e => .error e
          | .ok sig =>
            .ok (.ok ⟨env.accountAddress, env.accountPublicKey, sig,
              env.fallbackMessageBytes⟩)
        else
          .ok (.error ⟨false, none, some "Wallet does not support signing"⟩)
      match outputStep with
      | .error e => .error e
      | .ok (.error r) => .ok r
      | .ok (.ok _) =>
        match env.fetchResult with
        | .error e => .error e
        | .ok resp =>
          let dataSuccess := if resp.jsonOk then resp.dataSuccess else none
          let dataRedirectUrl := if resp.jsonOk then resp.dataRedirectUrl else none
          let dataError := if resp.jsonOk then resp.dataError else none
          if (!resp.ok || !(dataSuccess == some true)) then
            .ok ⟨false, none,
              some (jsOrElse dataError
                ("Verification failed (" ++ toString resp.status ++ ")"))⟩
          else
            .ok ⟨true, dataRedirectUrl, none⟩

/-- `connectAndSign`: the try body with its catch handler wrapped around it.
Total over every environment — every thrown error is converted into a
`success: false` result. -/
def connectAndSign (env : ConnectEnv) : SIWSResult :=
  match connectAndSignAux env with
  | .ok r => r
  | .error msg => ⟨false, none, some (catchMessage msg)⟩

/-!
Theorems.
-/

/-- Under a serialized execution of the two callbacks the nonce stage does
guarantee at-most-once consumption: the first execution reaches
verification, the second fails the nonce lookup. -/
theorem raceRun_serialized_one_success :
    reachesVerification (raceRun [false, false, true, true]).phase0 = true ∧
    failedNonceStage (raceRun [false, false, true, true]).phase1 = true := by
  decide

/-- C1: the claim asserts that at most one of two callback executions
sharing a nonce reaches signature verification, regardless of interleaving.
In the source the lookup (`Storage.get`) and the deletion (`Storage.remove`)
are two separate awaited operations; under the interleaving
lookup₀, lookup₁, delete₀, delete₁ both executions find the nonce record
still present and both reach signature verification, and neither fails with
InvalidOrExpiredNonce — refuting the claimed consequence on the code as
written (the per-execution delete-before-verify ordering itself does hold,
see `raceRun_serialized_one_success` for the serialized guarantee). -/
theorem c1_nonce_race_both_reach_verification :
    reachesVerification (raceRun [false, true, false, true]).phase0 = true ∧
    reachesVerification (raceRun [false, true, false, true]).phase1 = true ∧
    failedNonceStage (raceRun [false, true, false, true]).phase0 = false ∧
    failedNonceStage (raceRun [false, true, false, true]).phase1 = false := by
  decide

/-- C2: every nonce produced by `generateNonce` is a 16-character string
over the 62-letter alphanumeric alphabet, whatever the index stream the
random source yields. (The uniformity and cryptographic adequacy of the
source itself are properties of `Math.random` and live outside the
embedding; `Math.random` is not a cryptographically secure generator.) -/
theorem c2_generateNonce_shape (rand : Nat → Fin 62) :
    (generateNonce rand).length = 16 ∧
    ∀ c ∈ (generateNonce rand).toList, c ∈ nonceChars := by
  constructor
  · show ((List.range 16).map (fun i => nonceChars.getD (rand i).val 'A')).length = 16
    simp
  · intro c hc
    have hc' : c ∈ (List.range 16).map (fun i => nonceChars.getD (rand i).val 'A') := hc
    simp only [List.mem_map, List.mem_range] at hc'
    obtain ⟨i, _, rfl⟩ := hc'
    have hlt : (rand i).val < nonceChars.length := by
      have h62 : nonceChars.length = 62 := by decide
      rw [h62]
      exact (rand i).isLt
    rw [List.getD_eq_getElem nonceChars 'A' hlt]
    exact List.getElem_mem hlt

/-- Witness for C2 at the constant-zero index stream. -/
theorem c2_generateNonce_shape_witness :
    (generateNonce (fun _ => (0 : Fin 62))).length = 16 ∧ 'A' ∈ nonceChars := by
  refine ⟨(c2_generateNonce_shape (fun _ => (0 : Fin 62))).1, ?_⟩
  exact (c2_generateNonce_shape (fun _ => (0 : Fin 62))).2 'A' (by decide)

/-- Concrete callback body whose `publicKey` is present but an empty array. -/
def c3CounterEnv : CallbackEnv :=
  { body := some { address := some "7xKXtg2CW87d97TXJSDpbD5jBkheTqA83TZRuJosgAsU"
                   publicKey := some []
                   signature := some [1]
                   signedMessage := some [2] }
    cookie := some { domain := "example.com", statement := "s"
                     uri := "https://example.com", version := "1"
                     chainId := "mainnet", nonce := "AAAABBBBCCCCDDDD"
                     issuedAt := 0, expirationTime := 600000 }
    verifyOk := false
    parsed := none
    now := 0
    host := "example.com"
    successStatus := 302
    successLocation := none }

/-- C3 counterexample: a body with an empty `publicKey` byte array does not
produce MissingFields — JS treats an empty array as truthy — and a nonce
lookup is performed (here it fails, producing InvalidOrExpiredNonce on an
empty store), contradicting both halves of the claim for empty arrays. -/
theorem c3_empty_array_counterexample :
    (callbackHandler c3CounterEnv []).result ≠
      CallbackResult.errorJson "Missing required fields" 400 ∧
    (callbackHandler c3CounterEnv []).events ≠ [] := by
  decide

/-- C3 amended: the callback returns MissingFields with HTTP 400 and
performs no nonce lookup, deletion or verification when `address` is absent
or the empty string, or when any of `publicKey`, `signature`,
`signedMessage` is absent — an empty byte array for those three counts as
present and does not trigger MissingFields. -/
theorem c3_missing_fields_amended (env : CallbackEnv) (store : NonceStore)
    (body : CallbackBody) (hb : env.body = some body)
    (h : jsFalsyString body.address = true ∨ body.publicKey = none ∨
      body.signature = none ∨ body.signedMessage = none) :
    (callbackHandler env store).result =
      CallbackResult.errorJson "Missing required fields" 400 ∧
    (callbackHandler env store).store = store ∧
    (callbackHandler env store).events = [] := by
  have hm : missingFieldsCheck body = true := by
    rcases h with h | h | h | h
    · simp [missingFieldsCheck, h]
    · simp [missingFieldsCheck, jsFalsyArray, h]
    · simp [missingFieldsCheck, jsFalsyArray, h]
    · simp [missingFieldsCheck, jsFalsyArray, h]
  simp [callbackHandler, hb, hm]

/-- Witness for C3's amended theorem: a body missing its `signature`. -/
theorem c3_missing_fields_amended_witness :
    (callbackHandler
      { c3CounterEnv with
        body := some { address := some "addr", publicKey := some [1]
                       signature := none, signedMessage := some [2] } }
      []).result = CallbackResult.errorJson "Missing required fields" 400 := by
  exact (c3_missing_fields_amended _ []
    { address := some "addr", publicKey := some [1]
      signature := none, signedMessage := some [2] }
    rfl (Or.inr (Or.inr (Or.inl rfl)))).1

/-- C4: when the parsed message's domain differs from the callback
request's own host — an exact string inequality, with no subdomain
leniency — the handler returns DomainMismatch (HTTP 401), even though the
signature verified (`hv`) and the nonce was found (`hn`). The remaining
hypotheses state that the earlier pipeline stages pass (complete body,
recoverable cookie, parsable message), as the ordered short-circuit
pipeline requires for this stage to be reached. -/
theorem c4_domain_mismatch (env : CallbackEnv) (store : NonceStore)
    (body : CallbackBody) (input : SolanaSignInInput) (p : ParsedMessage)
    (iss : Int)
    (hb : env.body = some body) (hfields : missingFieldsCheck body = false)
    (hc : env.cookie = some input) (hn : findNonce store input.nonce = some iss)
    (hv : env.verifyOk = true) (hp : env.parsed = some p)
    (hd : p.domain ≠ env.host) :
    (callbackHandler env store).result =
      CallbackResult.errorJson "Domain mismatch" 401 := by
  simp [callbackHandler, hb, hfields, hc, hn, hv, hp, hd]

/-- Witness for C4: host `example.com`, signed message domain
`auth.example.com` — a subdomain, rejected despite a valid signature. -/
theorem c4_domain_mismatch_witness :
    (callbackHandler
      { body := some { address := some "addr", publicKey := some [1]
                       signature := some [2], signedMessage := some [3] }
        cookie := some { domain := "example.com", statement := "s"
                         uri := "https://example.com", version := "1"
                         chainId := "mainnet", nonce := "NNNN"
                         issuedAt := 0, expirationTime := 600000 }
        verifyOk := true
        parsed := some { domain := "auth.example.com", expirationTime := some 600000
                         notBefore := none }
        now := 1
        host := "example.com"
        successStatus := 302
        successLocation := some "https://app/cb" }
      [("NNNN", 0)]).result = CallbackResult.errorJson "Domain mismatch" 401 := by
  exact c4_domain_mismatch _ [("NNNN", 0)] _ _ _ 0 rfl (by decide) rfl (by decide)
    rfl rfl (by decide)

/-- C5: a validly signed, domain-matching message whose parsed
`expirationTime` lies strictly before the current time produces
MessageExpired (HTTP 401), even though the nonce record was still present
in the store when the callback ran (`hn`). -/
theorem c5_message_expired (env : CallbackEnv) (store : NonceStore)
    (body : CallbackBody) (input : SolanaSignInInput) (p : ParsedMessage)
    (iss texp : Int)
    (hb : env.body = some body) (hfields : missingFieldsCheck body = false)
    (hc : env.cookie = some input) (hn : findNonce store input.nonce = some iss)
    (hv : env.verifyOk = true) (hp : env.parsed = some p)
    (hd : p.domain = env.host)
    (he : p.expirationTime = some texp) (hlt : texp < env.now) :
    (callbackHandler env store).result =
      CallbackResult.errorJson "Message expired" 401 := by
  have hexp : expiredCheck p env.now = true := by
    simp [expiredCheck, he, hlt]
  simp [callbackHandler, hb, hfields, hc, hn, hv, hp, hd, hexp]

/-- Witness for C5: message expired at t=600000, callback at t=600001,
nonce still stored. -/
theorem c5_message_expired_witness :
    (callbackHandler
      { body := some { address := some "addr", publicKey := some [1]
                       signature := some [2], signedMessage := some [3] }
        cookie := some { domain := "example.com", statement := "s"
                         uri := "https://example.com", version := "1"
                         chainId := "mainnet", nonce := "MMMM"
                         issuedAt := 0, expirationTime := 600000 }
        verifyOk := true
        parsed := some { domain := "example.com", expirationTime := some 600000
                         notBefore := none }
        now := 600001
        host := "example.com"
        successStatus := 302
        successLocation := some "https://app/cb" }
      [("MMMM", 0)]).result = CallbackResult.errorJson "Message expired" 401 := by
  exact c5_message_expired _ [("MMMM", 0)] _ _ _ 0 600000 rfl (by decide) rfl
    (by decide) rfl rfl rfl rfl (by decide)

/-- C6: for every authorize request the issued challenge satisfies
`issuedAt = now` and `expirationTime = now + validityWindowSeconds * 1000`
milliseconds with `validityWindowSeconds = config.nonceExpiry ?? 600`; the
nonce record is persisted under `["solana", "nonce", nonce]` with TTL equal
to the same window and holds the issuance time; and in the effect trace the
persistence strictly precedes the hand-off to the presentation layer. -/
theorem c6_authorize_challenge (env : AuthorizeEnv) (store : NonceStore) :
    (authorizeHandler env store).signInInput.issuedAt = env.now ∧
    (authorizeHandler env store).signInInput.expirationTime =
      env.now + env.configNonceExpiry.getD 600 * 1000 ∧
    (authorizeHandler env store).events =
      [AuthEvent.storageSet ["solana", "nonce", env.nonce]
        (env.configNonceExpiry.getD 600),
       AuthEvent.cookieSet (env.configNonceExpiry.getD 600),
       AuthEvent.render (env.origin ++ "/solana/callback")
        (env.redirectQuery.getD env.origin)] ∧
    findNonce (authorizeHandler env store).store env.nonce = some env.now := by
  refine ⟨rfl, rfl, rfl, ?_⟩
  show (List.find? (fun p => p.1 == env.nonce)
    ((env.nonce, env.now) :: store)).map Prod.snd = some env.now
  rw [List.find?_cons_of_pos _ (by simp)]
  rfl

/-- C7: a callback passing every validation stage delegates to
`ctx.success` with the body's address (the `successCall` event) and
returns the redirect target extracted from that response's Location header
as the structured JSON value `{success: true, redirectUrl}` — not the raw
response object. The hypothesis `hloc` is the session-completion
collaborator's contract: its response carries a redirect target. -/
theorem c7_success_json (env : CallbackEnv) (store : NonceStore)
    (body : CallbackBody) (input : SolanaSignInInput) (p : ParsedMessage)
    (iss : Int) (a url : String)
    (hb : env.body = some body) (hfields : missingFieldsCheck body = false)
    (hc : env.cookie = some input) (hn : findNonce store input.nonce = some iss)
    (hv : env.verifyOk = true) (hp : env.parsed = some p)
    (hd : p.domain = env.host)
    (hexp : expiredCheck p env.now = false)
    (hnb : notYetValidCheck p env.now = false)
    (ha : body.address = some a)
    (hloc : env.successLocation = some url) :
    (callbackHandler env store).result = CallbackResult.successJson url ∧
    Event.successCall a ∈ (callbackHandler env store).events := by
  simp [callbackHandler, hb, hfields, hc, hn, hv, hp, hd, hexp, hnb, ha, hloc]

/-- Witness for C7: a fully valid callback produces the success JSON and
the delegation event. -/
theorem c7_success_json_witness :
    (callbackHandler
      { body := some { address := some "addr7", publicKey := some [1]
                       signature := some [2], signedMessage := some [3] }
        cookie := some { domain := "example.com", statement := "s"
                         uri := "https://example.com", version := "1"
                         chainId := "mainnet", nonce := "PPPP"
                         issuedAt := 0, expirationTime := 600000 }
        verifyOk := true
        parsed := some { domain := "example.com", expirationTime := some 600000
                         notBefore := none }
        now := 1
        host := "example.com"
        successStatus := 302
        successLocation := some "https://app/cb?code=abc" }
      [("PPPP", 0)]).result =
        CallbackResult.successJson "https://app/cb?code=abc" ∧
    Event.successCall "addr7" ∈
      (callbackHandler
        { body := some { address := some "addr7", publicKey := some [1]
                         signature := some [2], signedMessage := some [3] }
          cookie := some { domain := "example.com", statement := "s"
                           uri := "https://example.com", version := "1"
                           chainId := "mainnet", nonce := "PPPP"
                           issuedAt := 0, expirationTime := 600000 }
          verifyOk := true
          parsed := some { domain := "example.com", expirationTime := some 600000
                           notBefore := none }
          now := 1
          host := "example.com"
          successStatus := 302
          successLocation := some "https://app/cb?code=abc" }
        [("PPPP", 0)]).events := by
  exact c7_success_json _ [("PPPP", 0)] _ _ _ 0 "addr7" "https://app/cb?code=abc"
    rfl (by decide) rfl (by decide) rfl rfl rfl (by decide) (by decide) rfl rfl

/-- C10: when the re-parsed message carries neither `expirationTime` nor
`notBefore`, the handler performs no timing validation: for every current
time it never returns MessageExpired or MessageNotYetValid, and a
signature-valid, domain-matching message completes authentication
(returning the success JSON whenever the completion response carries a
redirect target) no matter how old the message is. -/
theorem c10_no_timing_fields (env : CallbackEnv) (store : NonceStore)
    (body : CallbackBody) (input : SolanaSignInInput) (p : ParsedMessage)
    (iss : Int)
    (hb : env.body = some body) (hfields : missingFieldsCheck body = false)
    (hc : env.cookie = some input) (hn : findNonce store input.nonce = some iss)
    (hv : env.verifyOk = true) (hp : env.parsed = some p)
    (hd : p.domain = env.host)
    (hexpn : p.expirationTime = none) (hnbn : p.notBefore = none) :
    (callbackHandler env store).result ≠
      CallbackResult.errorJson "Message expired" 401 ∧
    (callbackHandler env store).result ≠
      CallbackResult.errorJson "Message not yet valid" 401 ∧
    ∀ url, env.successLocation = some url →
      (callbackHandler env store).result = CallbackResult.successJson url := by
  have hexp : expiredCheck p env.now = false := by
    simp [expiredCheck, hexpn]
  have hnb : notYetValidCheck p env.now = false := by
    simp [notYetValidCheck, hnbn]
  refine ⟨?_, ?_, ?_⟩
  · cases hloc : env.successLocation with
    | none => simp [callbackHandler, hb, hfields, hc, hn, hv, hp, hd, hexp, hnb, hloc]
    | some url => simp [callbackHandler, hb, hfields, hc, hn, hv, hp, hd, hexp, hnb, hloc]
  · cases hloc : env.successLocation with
    | none => simp [callbackHandler, hb, hfields, hc, hn, hv, hp, hd, hexp, hnb, hloc]
    | some url => simp [callbackHandler, hb, hfields, hc, hn, hv, hp, hd, hexp, hnb, hloc]
  · intro url hloc
    simp [callbackHandler, hb, hfields, hc, hn, hv, hp, hd, hexp, hnb, hloc]

/-- Witness for C10: a message issued in the distant past, with no timing
fields, still completes (current time one billion ms). -/
theorem c10_no_timing_fields_witness :
    (callbackHandler
      { body := some { address := some "addrX", publicKey := some [1]
                       signature := some [2], signedMessage := some [3] }
        cookie := some { domain := "example.com", statement := "s"
                         uri := "https://example.com", version := "1"
                         chainId := "mainnet", nonce := "QQQQ"
                         issuedAt := 0, expirationTime := 600000 }
        verifyOk := true
        parsed := some { domain := "example.com", expirationTime := none
                         notBefore := none }
        now := 1000000000
        host := "example.com"
        successStatus := 302
        successLocation := some "https://app/cb?code=old" }
      [("QQQQ", 0)]).result = CallbackResult.successJson "https://app/cb?code=old" := by
  exact (c10_no_timing_fields _ [("QQQQ", 0)] _ _ _ 0 rfl (by decide) rfl
    (by decide) rfl rfl rfl rfl rfl).2.2 "https://app/cb?code=old" rfl

/-- C8: the wallets surfaced by `getWallets` are exactly the discovered
wallets whose name contains a curated allow-list entry as a
case-insensitive substring, their relative order is preserved (sublist of
the discovery order), and the `onWalletsChange` subscription applies the
identical filter. -/
theorem c8_wallet_filter (ws : List WalletConnectorMetadata) :
    List.Sublist (getWallets ws) ws ∧
    (∀ w, w ∈ getWallets ws ↔ (w ∈ ws ∧ walletAllowed w = true)) ∧
    onWalletsChangeFiltered ws = getWallets ws := by
  refine ⟨List.filter_sublist ws, ?_, rfl⟩
  intro w
  simp [getWallets, List.mem_filter]

/-- Characterization of the try body of `connectAndSign`: whenever it
returns normally, a `success: true` result can only come from the fetch
stage with an OK response whose JSON parsed and reported success, and every
`success: false` result carries an error message. -/
theorem connectAndSignAux_ok (env : ConnectEnv) (r : SIWSResult)
    (hr : connectAndSignAux env = Except.ok r) :
    (r.success = true →
      ∃ resp, env.fetchResult = Except.ok resp ∧ resp.ok = true ∧
        resp.jsonOk = true ∧ resp.dataSuccess = some true) ∧
    (r.success = false → r.error.isSome = true) := by
  unfold connectAndSignAux at hr
  cases hc : env.connectResult with
  | error e =>
    rw [hc] at hr
    exact absurd hr (by simp)
  | ok u =>
    rw [hc] at hr
    by_cases hwc : env.walletConnected = false
    · rw [if_pos hwc] at hr
      injection hr with h
      subst h
      exact ⟨fun hs => absurd hs (by simp), fun _ => rfl⟩
    · rw [if_neg hwc] at hr
      by_cases hcf : env.connectorFound = false
      · rw [if_pos hcf] at hr
        injection hr with h
        subst h
        exact ⟨fun hs => absurd hs (by simp), fun _ => rfl⟩
      · rw [if_neg hcf] at hr
        simp only [] at hr
        by_cases hsi : env.hasSignIn = true
        · rw [if_pos hsi] at hr
          cases hsir : env.signInResult with
          | error e =>
            rw [hsir] at hr
            exact absurd hr (by simp)
          | ok outs =>
            rw [hsir] at hr
            cases outs with
            | nil =>
              injection hr with h
              subst h
              exact ⟨fun hs => absurd hs (by simp), fun _ => rfl⟩
            | cons o os =>
              cases hfr : env.fetchResult with
              | error e =>
                rw [hfr] at hr
                exact absurd hr (by simp)
              | ok resp =>
                rw [hfr] at hr
                simp only [] at hr
                by_cases hcond :
                    (!resp.ok || !((if resp.jsonOk then resp.dataSuccess else none)
                      == some true)) = true
                · rw [if_pos hcond] at hr
                  injection hr with h
                  subst h
                  exact ⟨fun hs => absurd hs (by simp), fun _ => rfl⟩
                · rw [if_neg hcond] at hr
                  injection hr with h
                  subst h
                  refine ⟨fun _ => ?_, fun hs => absurd hs (by simp)⟩
                  simp only [Bool.or_eq_true, Bool.not_eq_true', beq_iff_eq,
                    not_or, Bool.not_eq_false] at hcond
                  obtain ⟨hok, hds⟩ := hcond
                  by_cases hj : resp.jsonOk = true
                  · rw [if_pos hj] at hds
                    exact ⟨resp, rfl, hok, hj, by
                      cases hdd : resp.dataSuccess with
                      | none => rw [hdd] at hds; exact absurd hds (by simp)
                      | some b =>
                        rw [hdd] at hds
                        cases b with
                        | true => rfl
                        | false => exact absurd hds (by simp)⟩
                  · rw [if_neg hj] at hds
                    exact absurd hds (by simp)
        · rw [if_neg hsi] at hr
          by_cases hsm : env.hasSignMessage = true
          · rw [if_pos hsm] at hr
            cases hsmr : env.signMessageResult with
            | error e =>
              rw [hsmr] at hr
              exact absurd hr (by simp)
            | ok sig =>
              rw [hsmr] at hr
              cases hfr : env.fetchResult with
              | error e =>
                rw [hfr] at hr
                exact absurd hr (by simp)
              | ok resp =>
                rw [hfr] at hr
                simp only [] at hr
                by_cases hcond :
                    (!resp.ok || !((if resp.jsonOk then resp.dataSuccess else none)
                      == some true)) = true
                · rw [if_pos hcond] at hr
                  injection hr with h
                  subst h
                  exact ⟨fun hs => absurd hs (by simp), fun _ => rfl⟩
                · rw [if_neg hcond] at hr
                  injection hr with h
                  subst h
                  refine ⟨fun _ => ?_, fun hs => absurd hs (by simp)⟩
                  simp only [Bool.or_eq_true, Bool.not_eq_true', beq_iff_eq,
                    not_or, Bool.not_eq_false] at hcond
                  obtain ⟨hok, hds⟩ := hcond
                  by_cases hj : resp.jsonOk = true
                  · rw [if_pos hj] at hds
                    exact ⟨resp, rfl, hok, hj, by
                      cases hdd : resp.dataSuccess with
                      | none => rw [hdd] at hds; exact absurd hds (by simp)
                      | some b =>
                        rw [hdd] at hds
                        cases b with
                        | true => rfl
                        | false => exact absurd hds (by simp)⟩
                  · rw [if_neg hj] at hds
                    exact absurd hds (by simp)
          · rw [if_neg hsm] at hr
            injection hr with h
            subst h
            exact ⟨fun hs => absurd hs (by simp), fun _ => rfl⟩

/-- C9: `connectAndSign` is total at its interface — whatever the outcome
of every wallet and network interaction (including thrown errors, which the
catch handler converts), it produces a tagged `SIWSResult`; `success` is
`true` only when the callback fetch resolved with an OK response whose JSON
parsed and reported success, and every `success: false` result carries an
error message. -/
theorem c9_connectAndSign_tagged (env : ConnectEnv) :
    ((connectAndSign env).success = true →
      ∃ resp, env.fetchResult = Except.ok resp ∧ resp.ok = true ∧
        resp.jsonOk = true ∧ resp.dataSuccess = some true) ∧
    ((connectAndSign env).success = false →
      (connectAndSign env).error.isSome = true) := by
  cases haux : connectAndSignAux env with
  | ok r =>
    have h := connectAndSignAux_ok env r haux
    simp only [connectAndSign, haux]
    exact h
  | error m =>
    simp only [connectAndSign, haux]
    exact ⟨fun hs => absurd hs (by simp), fun _ => rfl⟩

/-- Witness for C9: a run in which the wallet signs natively and the server
answers OK with `success: true`. -/
theorem c9_connectAndSign_tagged_witness :
    ∃ resp,
      (ConnectEnv.mk (.ok ()) true true true (.ok [⟨"a", [1], [2], [3]⟩]) false
        (.ok []) "a" [1] [] (.ok ⟨true, 200, true, some true,
          some "https://app/cb?code=x", none⟩)).fetchResult = Except.ok resp ∧
      resp.ok = true ∧ resp.jsonOk = true ∧ resp.dataSuccess = some true := by
  exact (c9_connectAndSign_tagged
    (ConnectEnv.mk (.ok ()) true true true (.ok [⟨"a", [1], [2], [3]⟩]) false
      (.ok []) "a" [1] [] (.ok ⟨true, 200, true, some true,
        some "https://app/cb?code=x", none⟩))).1 (by decide)

/-- Witness for C8: of a discovery list containing a Phantom variant and an
unknown wallet, only the former is surfaced. -/
theorem c8_wallet_filter_witness :
    WalletConnectorMetadata.mk "phantom wallet" ∈
      getWallets [⟨"phantom wallet"⟩, ⟨"EvilDrainer"⟩] ∧
    WalletConnectorMetadata.mk "EvilDrainer" ∉
      getWallets [⟨"phantom wallet"⟩, ⟨"EvilDrainer"⟩] := by
  have h := c8_wallet_filter [⟨"phantom wallet"⟩, ⟨"EvilDrainer"⟩]
  constructor
  · exact (h.2.1 ⟨"phantom wallet"⟩).mpr ⟨by simp, by decide⟩
  · intro hm
    exact absurd ((h.2.1 ⟨"EvilDrainer"⟩).mp hm).2 (by decide)

end OpenauthSiws
